import Mathlib

/-!
Shallow embedding of client/pluginmanager/csimanager/volume.go (package
csimanager): the volume manager that stages CSI volumes for use by
allocations. Filesystem and remote-plugin effects are modelled by an
explicit environment (the outcomes the host and the plugin would return)
together with a trace of the effects the code performs, in order.
Durations are in nanoseconds, matching the Go time.Duration unit.
-/

/-- One nanosecond, the unit of Go time.Duration. -/
def nanosecond : Nat := 1

/-- Go time.Millisecond in nanoseconds. -/
def millisecond : Nat := 1000000

/-- Go time.Minute in nanoseconds. -/
def minute : Nat := 60000000000

/-- Constant from volume.go: DefaultMountActionTimeout = 2 * time.Minute. -/
def DefaultMountActionTimeout : Nat := 2 * minute

/-- Constant from volume.go: StagingDirName = "staging". -/
def StagingDirName : String := "staging"

/-- Constant from volume.go: AllocSpecificDirName = "per-alloc". -/
def AllocSpecificDirName : String := "per-alloc"

/-- Domain attachment mode (Go: structs.CSIVolumeAttachmentMode, a string
type). The two known constants are constructors; `other s` stands for any
string value outside the known enumeration, carrying that string. -/
inductive CSIVolumeAttachmentMode
  | BlockDevice
  | Filesystem
  | other (s : String)
deriving DecidableEq

/-- Domain access mode (Go: structs.CSIVolumeAccessMode, a string type).
The five known constants are constructors; `other s` stands for any string
value outside the known enumeration. -/
inductive CSIVolumeAccessMode
  | SingleNodeReader
  | SingleNodeWriter
  | MultiNodeReader
  | MultiNodeSingleWriter
  | MultiNodeMultiWriter
  | other (s : String)
deriving DecidableEq

/-- Wire access type (Go: csi.VolumeAccessType). -/
inductive VolumeAccessType
  | Block
  | Mount
deriving DecidableEq

/-- Wire access mode (Go: csi.VolumeAccessMode). -/
inductive VolumeAccessMode
  | SingleNodeReaderOnly
  | SingleNodeWriter
  | MultiNodeReaderOnly
  | MultiNodeSingleWriter
  | MultiNodeMultiWriter
deriving DecidableEq

/-- Wire capability descriptor (Go: csi.VolumeCapability). The
VolumeMountOptions field is passed as an empty struct in the source
(GH-7007) and is not modelled. -/
structure VolumeCapability where
  AccessType : VolumeAccessType
  AccessMode : VolumeAccessMode
deriving DecidableEq

/-- The fields of structs.CSIVolume that volume.go reads. -/
structure CSIVolume where
  ID : String
  AttachmentMode : CSIVolumeAttachmentMode
  AccessMode : CSIVolumeAccessMode
deriving DecidableEq

/-- The fields of structs.Allocation that volume.go reads (none beyond
identity; the allocation is only passed through). -/
structure Allocation where
  ID : String
deriving DecidableEq

/-- The grpc retry call options passed to the plugin stage call
(volume.go lines 153-155). -/
inductive GrpcCallOption
  | withPerRetryTimeout (timeoutNs : Nat)
  | withMax (maxAttempts : Nat)
  | withBackoffExponential (scalarNs : Nat)
deriving DecidableEq

/-- The observable effects volume.go performs, in order: the MkdirAll call
and the mount-point probe of ensureStagingDir (filesystem), and the
NodeStageVolume remote call (network). -/
inductive Effect
  | mkdirAll (path : String) (perm : Nat)
  | isNotAMountPoint (path : String)
  | nodeStageVolume (volumeID : String) (stagingPath : String)
      (cap : VolumeCapability) (opts : List GrpcCallOption)
deriving DecidableEq

/-- True exactly for the mount-point probe effect. -/
def Effect.isProbe : Effect → Bool
  | .isNotAMountPoint _ => true
  | _ => false

/-- The underlying string of an attachment mode, as the Go %s verb would
print it. The known constants are declared in the structs package, outside
this source file; their literal values are rendered by their wire names.
Only the `other` case is load-bearing for the claims. -/
def CSIVolumeAttachmentMode.render : CSIVolumeAttachmentMode → String
  | .BlockDevice => "block-device"
  | .Filesystem => "file-system"
  | .other s => s

/-- The underlying string of an access mode, as the Go %v verb would print
it; see CSIVolumeAttachmentMode.render. -/
def CSIVolumeAccessMode.render : CSIVolumeAccessMode → String
  | .SingleNodeReader => "single-node-reader-only"
  | .SingleNodeWriter => "single-node-writer"
  | .MultiNodeReader => "multi-node-reader-only"
  | .MultiNodeSingleWriter => "multi-node-single-writer"
  | .MultiNodeMultiWriter => "multi-node-multi-writer"
  | .other s => s

/-- The errors volume.go can return, one constructor per fmt.Errorf site
(carrying the data the format string interpolates), plus `remote` for an
error returned by the plugin call itself. -/
inductive GoError
  | stagingDirCreateFailed (volumeID : String) (cause : String)
  | mountPointDetectionFailed (volumeID : String) (cause : String)
  | unknownAttachmentMode (mode : CSIVolumeAttachmentMode)
  | unknownAccessMode (mode : CSIVolumeAccessMode)
  | remote (transient : Bool) (msg : String)
  | unimplemented
deriving DecidableEq

/-- The error message string, following each fmt.Errorf format in the
source. -/
def GoError.message : GoError → String
  | .stagingDirCreateFailed volumeID cause =>
      "failed to create staging directory for volume (" ++ volumeID ++ "): " ++ cause
  | .mountPointDetectionFailed volumeID cause =>
      "mount point detection failed for volume (" ++ volumeID ++ "): " ++ cause
  | .unknownAttachmentMode m => "Unknown volume attachment mode: " ++ m.render
  | .unknownAccessMode m => "Unknown volume access mode: " ++ m.render
  | .remote _ msg => msg
  | .unimplemented => "Unimplemented"

/-- The error taxonomy of spec section 7, used to classify the errors of
the source. -/
inductive ErrorClass
  | InvalidState
  | LocalIOError
  | TransientRemote
  | FatalRemote
  | Unimplemented
deriving DecidableEq

/-- Classification of each source error under the spec section 7
taxonomy. -/
def GoError.errClass : GoError → ErrorClass
  | .stagingDirCreateFailed _ _ => ErrorClass.LocalIOError
  | .mountPointDetectionFailed _ _ => ErrorClass.LocalIOError
  | .unknownAttachmentMode _ => ErrorClass.InvalidState
  | .unknownAccessMode _ => ErrorClass.InvalidState
  | .remote true _ => ErrorClass.TransientRemote
  | .remote false _ => ErrorClass.FatalRemote
  | .unimplemented => ErrorClass.Unimplemented

/-- Modelled from the spec: the staging state machine states of section
4.4 (the source stores registry values as interface\x7b\x7d, an untyped
placeholder). -/
inductive UsageState
  | Unstaged
  | Staged
  | Published
  | Unpublished
deriving DecidableEq

/-- Modelled from the spec: the UsageRecord of section 3 (stagingPath,
referenceCount, state), the typed shape of the values the registry is
meant to hold; the source keeps them untyped. -/
structure UsageRecord where
  stagingPath : String
  referenceCount : Nat
  state : UsageState
deriving DecidableEq

/-- The volumeManager struct of volume.go. The Go volumes field is a
map from string keys to untyped values, modelled as an association list
with the spec-modelled UsageRecord as value type; the logger and the
plugin client handle carry no state relevant to the claims (the plugin
call outcomes live in Env). -/
structure volumeManager where
  volumes : List (String × UsageRecord)
  mountRoot : String
  requiresStaging : Bool
deriving DecidableEq

/-- newVolumeManager from volume.go: fresh empty registry, the given
mount root and staging requirement. -/
def newVolumeManager (rootDir : String) (requiresStaging : Bool) : volumeManager :=
  { volumes := [], mountRoot := rootDir, requiresStaging := requiresStaging }

/-- Model of Go path/filepath.Join for clean components: non-empty
components joined with the separator (full path cleaning of embedded
separators or dot segments is not modelled; the components the source
joins are a configured root, a constant, and a volume identifier). -/
def filepathJoin (parts : List String) : String :=
  String.intercalate "/" (parts.filter (fun s => s != ""))

/-- stagingDirForVolume from volume.go: Join(mountRoot, StagingDirName,
vol.ID, "todo-provide-usage-options"). The last segment is the literal
placeholder string from the source. -/
def stagingDirForVolume (v : volumeManager) (vol : CSIVolume) : String :=
  filepathJoin [v.mountRoot, StagingDirName, vol.ID, "todo-provide-usage-options"]

/-- Outcome the host returns for the os.MkdirAll call: success, an error
satisfying os.IsExist, or any other error. -/
inductive MkdirResult
  | ok
  | errExist (msg : String)
  | errOther (msg : String)
deriving DecidableEq

/-- True exactly when the MkdirAll outcome makes ensureStagingDir fail
(err != nil and not os.IsExist(err)). -/
def MkdirResult.failsCreate : MkdirResult → Bool
  | .errOther _ => true
  | _ => false

/-- The environment of one staging call: what the host filesystem, the
mount-table probe and the plugin would answer. pluginStageResult is the
error (or nil) the NodeStageVolume call resolves to after its retry
middleware has run. -/
structure Env where
  mkdirResult : MkdirResult
  probeResult : Except String Bool
  pluginStageResult : Option GoError

/-- ensureStagingDir from volume.go: resolve the staging path, MkdirAll
it with permission 0700 (448) treating an os.IsExist error as success,
then probe IsNotAMountPoint. Returns (existingMount, stagingPath) or the
wrapped error, with the trace of effects performed. -/
def ensureStagingDir (v : volumeManager) (vol : CSIVolume) (env : Env) :
    Except GoError (Bool × String) × List Effect :=
  let stagingPath := stagingDirForVolume v vol
  match env.mkdirResult with
  | MkdirResult.errOther msg =>
      (Except.error (GoError.stagingDirCreateFailed vol.ID msg),
       [Effect.mkdirAll stagingPath 448])
  | _ =>
      match env.probeResult with
      | Except.error msg =>
          (Except.error (GoError.mountPointDetectionFailed vol.ID msg),
           [Effect.mkdirAll stagingPath 448, Effect.isNotAMountPoint stagingPath])
      | Except.ok isNotMount =>
          (Except.ok (!isNotMount, stagingPath),
           [Effect.mkdirAll stagingPath 448, Effect.isNotAMountPoint stagingPath])

/-- The attachment-mode switch of stageVolume (volume.go lines 103-115):
the two known constants translate, the default case is the unknown-mode
error. -/
def translateAttachmentMode : CSIVolumeAttachmentMode → Except GoError VolumeAccessType
  | CSIVolumeAttachmentMode.BlockDevice => Except.ok VolumeAccessType.Block
  | CSIVolumeAttachmentMode.Filesystem => Except.ok VolumeAccessType.Mount
  | CSIVolumeAttachmentMode.other s =>
      Except.error (GoError.unknownAttachmentMode (CSIVolumeAttachmentMode.other s))

/-- The access-mode switch of stageVolume (volume.go lines 117-135). -/
def translateAccessMode : CSIVolumeAccessMode → Except GoError VolumeAccessMode
  | CSIVolumeAccessMode.SingleNodeReader => Except.ok VolumeAccessMode.SingleNodeReaderOnly
  | CSIVolumeAccessMode.SingleNodeWriter => Except.ok VolumeAccessMode.SingleNodeWriter
  | CSIVolumeAccessMode.MultiNodeMultiWriter => Except.ok VolumeAccessMode.MultiNodeMultiWriter
  | CSIVolumeAccessMode.MultiNodeSingleWriter => Except.ok VolumeAccessMode.MultiNodeSingleWriter
  | CSIVolumeAccessMode.MultiNodeReader => Except.ok VolumeAccessMode.MultiNodeReaderOnly
  | CSIVolumeAccessMode.other s =>
      Except.error (GoError.unknownAccessMode (CSIVolumeAccessMode.other s))

/-- The retry options stageVolume passes to NodeStageVolume (volume.go
lines 153-155): per-retry timeout DefaultMountActionTimeout, at most 3
attempts, exponential backoff from 100 milliseconds. -/
def stageRetryOptions : List GrpcCallOption :=
  [GrpcCallOption.withPerRetryTimeout DefaultMountActionTimeout,
   GrpcCallOption.withMax 3,
   GrpcCallOption.withBackoffExponential (100 * millisecond)]

/-- Result of one stageVolume call: the returned error (none is success),
the manager afterwards, and the trace of effects performed. -/
structure StageResult where
  err : Option GoError
  mgr : volumeManager
  trace : List Effect
deriving DecidableEq

/-- stageVolume from volume.go: ensure the staging directory; short-circuit
with success on a pre-existing mount; translate the attachment and access
modes, failing on an unknown value; otherwise call the plugin
NodeStageVolume with the staging path, the translated capability and the
retry options, returning its result. The manager itself is never written
(in particular the volumes registry is untouched). -/
def stageVolume (v : volumeManager) (vol : CSIVolume) (env : Env) : StageResult :=
  match ensureStagingDir v vol env with
  | (Except.error e, tr) => { err := some e, mgr := v, trace := tr }
  | (Except.ok (existingMount, stagingPath), tr) =>
    if existingMount then { err := none, mgr := v, trace := tr }
    else
      match translateAttachmentMode vol.AttachmentMode with
      | Except.error e => { err := some e, mgr := v, trace := tr }
      | Except.ok accessType =>
        match translateAccessMode vol.AccessMode with
        | Except.error e => { err := some e, mgr := v, trace := tr }
        | Except.ok accessMode =>
          { err := env.pluginStageResult
            mgr := v
            trace := tr ++ [Effect.nodeStageVolume vol.ID stagingPath
              { AccessType := accessType, AccessMode := accessMode } stageRetryOptions] }

/-- Modelled from the spec: MountInfo is declared outside this source
file; section 3 says it carries the publish path and read-only flag. In
this source it is only ever absent (the code returns nil). -/
structure MountInfo where
  publishPath : String
  readOnly : Bool
deriving DecidableEq

/-- Result of one MountVolume call. -/
structure MountResult where
  info : Option MountInfo
  err : Option GoError
  mgr : volumeManager
  trace : List Effect
deriving DecidableEq

/-- MountVolume from volume.go: when requiresStaging, run stageVolume and
return its error on failure; in every remaining case return nil MountInfo
and the Unimplemented error. -/
def MountVolume (v : volumeManager) (vol : CSIVolume) (alloc : Allocation) (env : Env) :
    MountResult :=
  if v.requiresStaging then
    let r := stageVolume v vol env
    match r.err with
    | some e => { info := none, err := some e, mgr := r.mgr, trace := r.trace }
    | none => { info := none, err := some GoError.unimplemented, mgr := r.mgr, trace := r.trace }
  else
    { info := none, err := some GoError.unimplemented, mgr := v, trace := [] }

/-- UnmountVolume from volume.go: always the Unimplemented error. -/
def UnmountVolume (v : volumeManager) (vol : CSIVolume) (alloc : Allocation) :
    Option GoError :=
  some GoError.unimplemented

/-- The attachment-mode column of the table in spec section 4.1, written
from the words of the spec, to be compared with translateAttachmentMode;
none outside the known enumeration. -/
def specAttachmentTable : CSIVolumeAttachmentMode → Option VolumeAccessType
  | CSIVolumeAttachmentMode.BlockDevice => some VolumeAccessType.Block
  | CSIVolumeAttachmentMode.Filesystem => some VolumeAccessType.Mount
  | CSIVolumeAttachmentMode.other _ => none

/-- The access-mode table in spec section 4.1, written from the words of
the spec, to be compared with translateAccessMode. -/
def specAccessTable : CSIVolumeAccessMode → Option VolumeAccessMode
  | CSIVolumeAccessMode.SingleNodeReader => some VolumeAccessMode.SingleNodeReaderOnly
  | CSIVolumeAccessMode.SingleNodeWriter => some VolumeAccessMode.SingleNodeWriter
  | CSIVolumeAccessMode.MultiNodeReader => some VolumeAccessMode.MultiNodeReaderOnly
  | CSIVolumeAccessMode.MultiNodeSingleWriter => some VolumeAccessMode.MultiNodeSingleWriter
  | CSIVolumeAccessMode.MultiNodeMultiWriter => some VolumeAccessMode.MultiNodeMultiWriter
  | CSIVolumeAccessMode.other _ => none

/-- Modelled from the spec: the outcome of one plugin stage attempt as the
retry middleware (outside this repository) classifies it - success,
transient (timeout, resource exhaustion, unavailability) or fatal. -/
inductive AttemptOutcome
  | success
  | transient
  | fatal
deriving DecidableEq

/-- Modelled from the spec: the terminal result of the bounded retry
loop. -/
inductive RetryResult
  | ok
  | transientExhausted
  | fatalError
deriving DecidableEq

/-- Modelled from the spec: the exponential backoff of the retry
middleware; the delay before retry number k (k at least 1) is
scalar * 2 ^ (k - 1), so the first delay is the scalar itself (backoff
starting at 100 milliseconds when the scalar is 100 milliseconds). -/
def backoffExponential (scalarNs : Nat) (retryNumber : Nat) : Nat :=
  scalarNs * 2 ^ (retryNumber - 1)

/-- Modelled from the spec: the bounded retry loop around the plugin stage
call (the grpc retry middleware, outside this repository): up to the given
number of remaining attempts, retrying only transient outcomes, waiting
backoff k before retry number k. Arguments: outcome of each 0-based
attempt, backoff function, index of the next attempt, remaining attempt
budget. Returns (attempts made, delays waited between them, terminal
result). -/
def retryRun (attemptOutcome : Nat → AttemptOutcome) (backoff : Nat → Nat) :
    Nat → Nat → Nat × List Nat × RetryResult
  | _, 0 => (0, [], RetryResult.transientExhausted)
  | k, n + 1 =>
    match attemptOutcome k with
    | AttemptOutcome.success => (1, [], RetryResult.ok)
    | AttemptOutcome.fatal => (1, [], RetryResult.fatalError)
    | AttemptOutcome.transient =>
      if n = 0 then (1, [], RetryResult.transientExhausted)
      else
        match retryRun attemptOutcome backoff (k + 1) n with
        | (cnt, ds, r) => (cnt + 1, backoff (k + 1) :: ds, r)

/-- A manager with mount root /data/csi that requires staging, used as
concrete input below. -/
def mgrW : volumeManager := newVolumeManager "/data/csi" true

/-- The fresh-stage scenario volume of spec section 8. -/
def volW : CSIVolume :=
  { ID := "vol-1"
    AttachmentMode := CSIVolumeAttachmentMode.Filesystem
    AccessMode := CSIVolumeAccessMode.SingleNodeWriter }

/-- A volume whose attachment mode is the unknown string value. -/
def volUnknown : CSIVolume :=
  { ID := "vol-1"
    AttachmentMode := CSIVolumeAttachmentMode.other "unknown"
    AccessMode := CSIVolumeAccessMode.SingleNodeWriter }

/-- Same volume identifier as volW under a different usage combination. -/
def volB : CSIVolume :=
  { ID := "vol-1"
    AttachmentMode := CSIVolumeAttachmentMode.BlockDevice
    AccessMode := CSIVolumeAccessMode.MultiNodeMultiWriter }

/-- Environment of a fresh stage: directory created, probe reports not a
mount point, plugin call succeeds. -/
def envFresh : Env :=
  { mkdirResult := MkdirResult.ok, probeResult := Except.ok true, pluginStageResult := none }

/-- Environment where the staging path is already a mount point. -/
def envMounted : Env :=
  { mkdirResult := MkdirResult.ok, probeResult := Except.ok false, pluginStageResult := none }

/-- Environment where the mount-point probe itself fails. -/
def envProbeErr : Env :=
  { mkdirResult := MkdirResult.ok, probeResult := Except.error "io error",
    pluginStageResult := none }

/-- Environment where MkdirAll returns an os.IsExist error. -/
def envExist : Env :=
  { mkdirResult := MkdirResult.errExist "file exists", probeResult := Except.ok true,
    pluginStageResult := none }

/-- Environment where MkdirAll fails with an error that is not
os.IsExist. -/
def envMkdirErr : Env :=
  { mkdirResult := MkdirResult.errOther "permission denied", probeResult := Except.ok true,
    pluginStageResult := none }

/-- A manager that does not require staging, used as concrete input
below. -/
def mgrNoStage : volumeManager := newVolumeManager "/data/csi" false

/-- A concrete allocation, used as concrete input below. -/
def allocW : Allocation := { ID := "alloc-1" }

/-- When directory creation does not fail and the probe answers b,
ensureStagingDir returns (not b, the resolved path) after the MkdirAll
and probe effects. -/
theorem ensureStagingDir_ok (v : volumeManager) (vol : CSIVolume) (env : Env)
    (hmk : env.mkdirResult.failsCreate = false) (b : Bool)
    (hpr : env.probeResult = Except.ok b) :
    ensureStagingDir v vol env =
      (Except.ok (!b, stagingDirForVolume v vol),
       [Effect.mkdirAll (stagingDirForVolume v vol) 448,
        Effect.isNotAMountPoint (stagingDirForVolume v vol)]) := by
  rcases hm : env.mkdirResult with _ | m | m
  · simp [ensureStagingDir, hm, hpr]
  · simp [ensureStagingDir, hm, hpr]
  · rw [hm] at hmk
    simp [MkdirResult.failsCreate] at hmk

/-- When directory creation does not fail and the probe errors,
ensureStagingDir returns the wrapped probe error after the MkdirAll and
probe effects. -/
theorem ensureStagingDir_probeErr (v : volumeManager) (vol : CSIVolume) (env : Env)
    (msg : String)
    (hmk : env.mkdirResult.failsCreate = false)
    (hpr : env.probeResult = Except.error msg) :
    ensureStagingDir v vol env =
      (Except.error (GoError.mountPointDetectionFailed vol.ID msg),
       [Effect.mkdirAll (stagingDirForVolume v vol) 448,
        Effect.isNotAMountPoint (stagingDirForVolume v vol)]) := by
  rcases hm : env.mkdirResult with _ | m | m
  · simp [ensureStagingDir, hm, hpr]
  · simp [ensureStagingDir, hm, hpr]
  · rw [hm] at hmk
    simp [MkdirResult.failsCreate] at hmk

/-- The ensureStagingDir trace never contains a plugin call. -/
theorem ensureStagingDir_no_plugin (v : volumeManager) (vol : CSIVolume) (env : Env)
    (volumeID p : String) (cap : VolumeCapability) (opts : List GrpcCallOption) :
    Effect.nodeStageVolume volumeID p cap opts ∉ (ensureStagingDir v vol env).2 := by
  rcases hm : env.mkdirResult with _ | m | m <;>
    rcases hp : env.probeResult with e | b <;>
    simp [ensureStagingDir, hm, hp]

/-- The stageVolume trace is the ensureStagingDir trace, possibly followed
by a single plugin stage call carrying the retry options. -/
theorem stageVolume_trace_cases (v : volumeManager) (vol : CSIVolume) (env : Env) :
    (stageVolume v vol env).trace = (ensureStagingDir v vol env).2 ∨
    ∃ pth cap, (stageVolume v vol env).trace =
      (ensureStagingDir v vol env).2 ++
        [Effect.nodeStageVolume vol.ID pth cap stageRetryOptions] := by
  rcases hE : ensureStagingDir v vol env with ⟨r, tr⟩
  rcases r with e | ⟨b, pth⟩
  · left
    simp [stageVolume, hE]
  · cases b
    · rcases ht : translateAttachmentMode vol.AttachmentMode with e | ty
      · left
        simp [stageVolume, hE, ht]
      · rcases ha : translateAccessMode vol.AccessMode with e | md
        · left
          simp [stageVolume, hE, ht, ha]
        · right
          exact ⟨pth, { AccessType := ty, AccessMode := md }, by simp [stageVolume, hE, ht, ha]⟩
    · left
      simp [stageVolume, hE]

/-- Any plugin stage call in the stageVolume trace carries exactly the
retry options of the source. -/
theorem stageVolume_opts (v : volumeManager) (vol : CSIVolume) (env : Env)
    (volumeID p : String) (cap : VolumeCapability) (opts : List GrpcCallOption)
    (h : Effect.nodeStageVolume volumeID p cap opts ∈ (stageVolume v vol env).trace) :
    opts = stageRetryOptions := by
  rcases stageVolume_trace_cases v vol env with hc | ⟨pth, cp, hc⟩
  · rw [hc] at h
    exact absurd h (ensureStagingDir_no_plugin v vol env volumeID p cap opts)
  · rw [hc] at h
    rcases List.mem_append.mp h with h | h
    · exact absurd h (ensureStagingDir_no_plugin v vol env volumeID p cap opts)
    · simp at h
      exact h.2.2.2

/-- Claim C2: if the mount-point probe reports that the resolved staging
path is already a mount point, stageVolume returns success (nil error)
without any plugin stage call, so a repeated Stage of an already staged
volume makes no plugin call and still succeeds. -/
theorem c2_existing_mount_short_circuit (v : volumeManager) (vol : CSIVolume) (env : Env)
    (hmk : env.mkdirResult.failsCreate = false)
    (hpr : env.probeResult = Except.ok false) :
    (stageVolume v vol env).err = none ∧
    ∀ volumeID p cap opts,
      Effect.nodeStageVolume volumeID p cap opts ∉ (stageVolume v vol env).trace := by
  have hE := ensureStagingDir_ok v vol env hmk false hpr
  constructor
  · simp [stageVolume, hE]
  · intro volumeID p cap opts
    simp [stageVolume, hE]

/-- Claim C2 witness at the re-used mount scenario. -/
theorem c2_witness :
    (stageVolume mgrW volW envMounted).err = none ∧
    Effect.nodeStageVolume "vol-1" (stagingDirForVolume mgrW volW)
      { AccessType := VolumeAccessType.Mount, AccessMode := VolumeAccessMode.SingleNodeWriter }
      stageRetryOptions ∉ (stageVolume mgrW volW envMounted).trace := by
  have h := c2_existing_mount_short_circuit mgrW volW envMounted rfl rfl
  exact ⟨h.1, h.2 _ _ _ _⟩

/-- Claim C3 (amended): stageVolume never mutates the manager, so the
usage registry (the volumes map) is unchanged whether the plugin stage
call succeeds or fails; no UsageKey is ever recorded. -/
theorem c3_registry_unchanged (v : volumeManager) (vol : CSIVolume) (env : Env) :
    (stageVolume v vol env).mgr = v := by
  rcases hE : ensureStagingDir v vol env with ⟨r, tr⟩
  rcases r with e | ⟨b, pth⟩
  · simp [stageVolume, hE]
  · cases b
    · rcases ht : translateAttachmentMode vol.AttachmentMode with e | ty
      · simp [stageVolume, hE, ht]
      · rcases ha : translateAccessMode vol.AccessMode with e | md
        · simp [stageVolume, hE, ht, ha]
        · simp [stageVolume, hE, ht, ha]
    · simp [stageVolume, hE]

/-- Claim C3 counterexample: a stage call in which the plugin call runs
and succeeds leaves the registry empty - the UsageKey is not recorded as
Staged with reference count 0. -/
theorem c3_counterexample :
    (stageVolume mgrW volW envFresh).err = none ∧
    Effect.nodeStageVolume "vol-1" (stagingDirForVolume mgrW volW)
      { AccessType := VolumeAccessType.Mount, AccessMode := VolumeAccessMode.SingleNodeWriter }
      stageRetryOptions ∈ (stageVolume mgrW volW envFresh).trace ∧
    (stageVolume mgrW volW envFresh).mgr.volumes = [] := by
  refine ⟨by decide, by decide, by decide⟩

/-- Claim C5 counterexample: two distinct usage combinations (different
attachment and access modes) of the same volume resolve to the same
staging path - the final segment does not encode the usage key. -/
theorem c5_counterexample :
    volW.AttachmentMode ≠ volB.AttachmentMode ∧
    volW.AccessMode ≠ volB.AccessMode ∧
    volW.ID = volB.ID ∧
    stagingDirForVolume mgrW volW = stagingDirForVolume mgrW volB := by
  refine ⟨by decide, by decide, rfl, by decide⟩

/-- Claim C5 (amended): the staging path resolver deterministically
returns Join(mountRoot, "staging", volumeID, "todo-provide-usage-options")
as a pure function of the mount root and volume ID alone; any two volumes
with the same ID - in particular the same volume under distinct usage
combinations - resolve to the same path. -/
theorem c5_staging_path_resolver (v : volumeManager) (vol vol2 : CSIVolume)
    (hid : vol2.ID = vol.ID) :
    stagingDirForVolume v vol =
      filepathJoin [v.mountRoot, StagingDirName, vol.ID, "todo-provide-usage-options"] ∧
    stagingDirForVolume v vol2 = stagingDirForVolume v vol := by
  constructor
  · rfl
  · simp [stagingDirForVolume, hid]

/-- Claim C5 witness at volumes volW and volB sharing the ID vol-1. -/
theorem c5_witness :
    stagingDirForVolume mgrW volW =
      filepathJoin [mgrW.mountRoot, StagingDirName, volW.ID, "todo-provide-usage-options"] ∧
    stagingDirForVolume mgrW volB = stagingDirForVolume mgrW volW :=
  c5_staging_path_resolver mgrW volW volB rfl

/-- Claim C7: a mount-point probe error makes stageVolume fail at once
with an error naming the volume ID; the probe is consulted exactly once
and no plugin stage call is made. -/
theorem c7_probe_error_propagates (v : volumeManager) (vol : CSIVolume) (env : Env)
    (msg : String)
    (hmk : env.mkdirResult.failsCreate = false)
    (hpr : env.probeResult = Except.error msg) :
    (stageVolume v vol env).err = some (GoError.mountPointDetectionFailed vol.ID msg) ∧
    (∃ pre post,
      GoError.message (GoError.mountPointDetectionFailed vol.ID msg) =
        pre ++ vol.ID ++ post) ∧
    List.countP Effect.isProbe (stageVolume v vol env).trace = 1 ∧
    ∀ volumeID p cap opts,
      Effect.nodeStageVolume volumeID p cap opts ∉ (stageVolume v vol env).trace := by
  have hE := ensureStagingDir_probeErr v vol env msg hmk hpr
  refine ⟨?_, ?_, ?_, ?_⟩
  · simp [stageVolume, hE]
  · refine ⟨"mount point detection failed for volume (", "): " ++ msg, ?_⟩
    simp [GoError.message, String.append_assoc]
  · simp [stageVolume, hE, List.countP_cons, Effect.isProbe]
  · intro volumeID p cap opts
    simp [stageVolume, hE]

/-- Claim C7 witness at a concrete probe failure. -/
theorem c7_witness :
    (stageVolume mgrW volW envProbeErr).err =
      some (GoError.mountPointDetectionFailed "vol-1" "io error") ∧
    (∃ pre post,
      GoError.message (GoError.mountPointDetectionFailed "vol-1" "io error") =
        pre ++ "vol-1" ++ post) ∧
    List.countP Effect.isProbe (stageVolume mgrW volW envProbeErr).trace = 1 ∧
    Effect.nodeStageVolume "vol-1" (stagingDirForVolume mgrW volW)
      { AccessType := VolumeAccessType.Mount, AccessMode := VolumeAccessMode.SingleNodeWriter }
      stageRetryOptions ∉ (stageVolume mgrW volW envProbeErr).trace := by
  have h := c7_probe_error_propagates mgrW volW envProbeErr "io error" rfl rfl
  exact ⟨h.1, h.2.1, h.2.2.1, h.2.2.2 _ _ _ _⟩

/-- Claim C8: an already-exists outcome of the directory creation is
treated as success - ensureStagingDir behaves exactly as on a clean
creation and proceeds to the mount probe - while any other creation error
makes stageVolume return the wrapped error with no plugin call. -/
theorem c8_mkdir_exists_is_success (v : volumeManager) (vol : CSIVolume) (env : Env)
    (m1 m2 : String) :
    (env.mkdirResult = MkdirResult.errExist m1 →
      ensureStagingDir v vol env =
        ensureStagingDir v vol
          { mkdirResult := MkdirResult.ok, probeResult := env.probeResult,
            pluginStageResult := env.pluginStageResult } ∧
      Effect.isNotAMountPoint (stagingDirForVolume v vol) ∈ (ensureStagingDir v vol env).2) ∧
    (env.mkdirResult = MkdirResult.errOther m2 →
      (stageVolume v vol env).err = some (GoError.stagingDirCreateFailed vol.ID m2) ∧
      ∀ volumeID p cap opts,
        Effect.nodeStageVolume volumeID p cap opts ∉ (stageVolume v vol env).trace) := by
  constructor
  · intro hm
    constructor
    · rcases hp : env.probeResult with e | b <;> simp [ensureStagingDir, hm, hp]
    · rcases hp : env.probeResult with e | b <;> simp [ensureStagingDir, hm, hp]
  · intro hm
    have hE : ensureStagingDir v vol env =
        (Except.error (GoError.stagingDirCreateFailed vol.ID m2),
         [Effect.mkdirAll (stagingDirForVolume v vol) 448]) := by
      simp [ensureStagingDir, hm]
    constructor
    · simp [stageVolume, hE]
    · intro volumeID p cap opts
      simp [stageVolume, hE]

/-- Claim C8 witness at a concrete already-exists outcome and a concrete
fatal creation error. -/
theorem c8_witness :
    (ensureStagingDir mgrW volW envExist =
       ensureStagingDir mgrW volW
         { mkdirResult := MkdirResult.ok, probeResult := envExist.probeResult,
           pluginStageResult := envExist.pluginStageResult } ∧
     Effect.isNotAMountPoint (stagingDirForVolume mgrW volW) ∈
       (ensureStagingDir mgrW volW envExist).2) ∧
    ((stageVolume mgrW volW envMkdirErr).err =
       some (GoError.stagingDirCreateFailed "vol-1" "permission denied") ∧
     Effect.nodeStageVolume "vol-1" (stagingDirForVolume mgrW volW)
       { AccessType := VolumeAccessType.Mount, AccessMode := VolumeAccessMode.SingleNodeWriter }
       stageRetryOptions ∉ (stageVolume mgrW volW envMkdirErr).trace) := by
  constructor
  · exact (c8_mkdir_exists_is_success mgrW volW envExist "file exists" "x").1 rfl
  · have h := (c8_mkdir_exists_is_success mgrW volW envMkdirErr "x" "permission denied").2 rfl
    exact ⟨h.1, h.2 _ _ _ _⟩

/-- Claim C10: when requiresStaging is false, MountVolume performs no
effect at all (empty trace: no directory creation, no probe, no plugin
call), leaves the manager untouched, and returns nil MountInfo with the
Unimplemented error. -/
theorem c10_no_staging_no_effects (v : volumeManager) (vol : CSIVolume) (alloc : Allocation)
    (env : Env) (h : v.requiresStaging = false) :
    MountVolume v vol alloc env =
      { info := none, err := some GoError.unimplemented, mgr := v, trace := [] } := by
  simp [MountVolume, h]

/-- Claim C10 witness at a concrete manager that does not require
staging. -/
theorem c10_witness :
    MountVolume mgrNoStage volW allocW envFresh =
      { info := none, err := some GoError.unimplemented, mgr := mgrNoStage, trace := [] } :=
  c10_no_staging_no_effects mgrNoStage volW allocW envFresh rfl

/-- When the staging environment is fresh (directory creation does not
fail, the path is not already mounted) and both translations succeed,
stageVolume calls the plugin once with the translated capability and
returns its result. -/
theorem stageVolume_fresh (v : volumeManager) (vol : CSIVolume) (env : Env)
    (hmk : env.mkdirResult.failsCreate = false)
    (hpr : env.probeResult = Except.ok true)
    (ty : VolumeAccessType) (md : VolumeAccessMode)
    (hty : translateAttachmentMode vol.AttachmentMode = Except.ok ty)
    (hmd : translateAccessMode vol.AccessMode = Except.ok md) :
    stageVolume v vol env =
      { err := env.pluginStageResult
        mgr := v
        trace := [Effect.mkdirAll (stagingDirForVolume v vol) 448,
          Effect.isNotAMountPoint (stagingDirForVolume v vol),
          Effect.nodeStageVolume vol.ID (stagingDirForVolume v vol)
            { AccessType := ty, AccessMode := md } stageRetryOptions] } := by
  have hE := ensureStagingDir_ok v vol env hmk true hpr
  simp [stageVolume, hE, hty, hmd]

/-- When the staging environment is fresh and the attachment mode is
outside the known enumeration, stageVolume returns the unknown-mode error
after the filesystem effects and before any plugin call. -/
theorem stageVolume_unknownAttachment (v : volumeManager) (vol : CSIVolume) (env : Env)
    (s : String)
    (hmode : vol.AttachmentMode = CSIVolumeAttachmentMode.other s)
    (hmk : env.mkdirResult.failsCreate = false)
    (hpr : env.probeResult = Except.ok true) :
    stageVolume v vol env =
      { err := some (GoError.unknownAttachmentMode (CSIVolumeAttachmentMode.other s))
        mgr := v
        trace := [Effect.mkdirAll (stagingDirForVolume v vol) 448,
          Effect.isNotAMountPoint (stagingDirForVolume v vol)] } := by
  have hE := ensureStagingDir_ok v vol env hmk true hpr
  simp [stageVolume, hE, translateAttachmentMode, hmode]

/-- When the staging environment is fresh, the attachment mode is known
and the access mode is outside the known enumeration, stageVolume returns
the unknown-access-mode error after the filesystem effects and before any
plugin call. -/
theorem stageVolume_unknownAccess (v : volumeManager) (vol : CSIVolume) (env : Env)
    (ty : VolumeAccessType) (s : String)
    (hty : translateAttachmentMode vol.AttachmentMode = Except.ok ty)
    (hmode : vol.AccessMode = CSIVolumeAccessMode.other s)
    (hmk : env.mkdirResult.failsCreate = false)
    (hpr : env.probeResult = Except.ok true) :
    stageVolume v vol env =
      { err := some (GoError.unknownAccessMode (CSIVolumeAccessMode.other s))
        mgr := v
        trace := [Effect.mkdirAll (stagingDirForVolume v vol) 448,
          Effect.isNotAMountPoint (stagingDirForVolume v vol)] } := by
  have hE := ensureStagingDir_ok v vol env hmk true hpr
  simp [stageVolume, hE, hty, translateAccessMode, hmode]

/-- The source attachment-mode switch agrees with the spec table wherever
the table is defined. -/
theorem translate_agrees_spec_attachment (m : CSIVolumeAttachmentMode)
    (ty : VolumeAccessType) (h : specAttachmentTable m = some ty) :
    translateAttachmentMode m = Except.ok ty := by
  cases m <;> simp_all [specAttachmentTable, translateAttachmentMode]

/-- The source access-mode switch agrees with the spec table wherever the
table is defined. -/
theorem translate_agrees_spec_access (m : CSIVolumeAccessMode)
    (md : VolumeAccessMode) (h : specAccessTable m = some md) :
    translateAccessMode m = Except.ok md := by
  cases m <;> simp_all [specAccessTable, translateAccessMode]

/-- Claim C1: once the staging environment is reached (directory creation
does not fail, no pre-existing mount), the capability translation of
stageVolume succeeds on every known attachment/access-mode pair and
produces exactly the wire pair of the spec section 4.1 tables, and the
plugin is called once with that pair; for any value outside the known
enumerations stageVolume returns an InvalidState-class error and never
calls the plugin NodeStageVolume. -/
theorem c1_capability_translation (v : volumeManager) (vol : CSIVolume) (env : Env)
    (hmk : env.mkdirResult.failsCreate = false)
    (hpr : env.probeResult = Except.ok true) :
    (∀ ty md, specAttachmentTable vol.AttachmentMode = some ty →
      specAccessTable vol.AccessMode = some md →
      translateAttachmentMode vol.AttachmentMode = Except.ok ty ∧
      translateAccessMode vol.AccessMode = Except.ok md ∧
      (stageVolume v vol env).trace =
        [Effect.mkdirAll (stagingDirForVolume v vol) 448,
         Effect.isNotAMountPoint (stagingDirForVolume v vol),
         Effect.nodeStageVolume vol.ID (stagingDirForVolume v vol)
           { AccessType := ty, AccessMode := md } stageRetryOptions] ∧
      (stageVolume v vol env).err = env.pluginStageResult) ∧
    ((specAttachmentTable vol.AttachmentMode = none ∨
      specAccessTable vol.AccessMode = none) →
      (∃ e, (stageVolume v vol env).err = some e ∧
        GoError.errClass e = ErrorClass.InvalidState) ∧
      ∀ volumeID p cap opts,
        Effect.nodeStageVolume volumeID p cap opts ∉ (stageVolume v vol env).trace) := by
  constructor
  · intro ty md hty hmd
    have h1 := translate_agrees_spec_attachment vol.AttachmentMode ty hty
    have h2 := translate_agrees_spec_access vol.AccessMode md hmd
    have hS := stageVolume_fresh v vol env hmk hpr ty md h1 h2
    exact ⟨h1, h2, by rw [hS], by rw [hS]⟩
  · intro hbad
    rcases hA : vol.AttachmentMode with _ | _ | s
    case other =>
      have hS := stageVolume_unknownAttachment v vol env s hA hmk hpr
      refine ⟨⟨GoError.unknownAttachmentMode (CSIVolumeAttachmentMode.other s),
        by rw [hS], rfl⟩, ?_⟩
      intro volumeID p cap opts
      rw [hS]
      simp
    all_goals {
      rcases hC : vol.AccessMode with _ | _ | _ | _ | _ | s
      case other =>
        first
          | (have hS := stageVolume_unknownAccess v vol env VolumeAccessType.Block s
              (by rw [hA]; rfl) hC hmk hpr
             refine ⟨⟨GoError.unknownAccessMode (CSIVolumeAccessMode.other s),
               by rw [hS], rfl⟩, ?_⟩
             intro volumeID p cap opts
             rw [hS]
             simp)
          | (have hS := stageVolume_unknownAccess v vol env VolumeAccessType.Mount s
              (by rw [hA]; rfl) hC hmk hpr
             refine ⟨⟨GoError.unknownAccessMode (CSIVolumeAccessMode.other s),
               by rw [hS], rfl⟩, ?_⟩
             intro volumeID p cap opts
             rw [hS]
             simp)
      all_goals {
        rw [hA, hC] at hbad
        rcases hbad with hbad | hbad <;> simp [specAttachmentTable, specAccessTable] at hbad
      }
    }

/-- Claim C1 witness: the fresh-stage scenario volume translates to the
Mount and SingleNodeWriter wire pair and is staged with it; the
unknown-attachment-mode volume yields an InvalidState-class error with no
plugin call. -/
theorem c1_witness :
    (translateAttachmentMode volW.AttachmentMode = Except.ok VolumeAccessType.Mount ∧
     translateAccessMode volW.AccessMode = Except.ok VolumeAccessMode.SingleNodeWriter ∧
     (stageVolume mgrW volW envFresh).trace =
       [Effect.mkdirAll (stagingDirForVolume mgrW volW) 448,
        Effect.isNotAMountPoint (stagingDirForVolume mgrW volW),
        Effect.nodeStageVolume volW.ID (stagingDirForVolume mgrW volW)
          { AccessType := VolumeAccessType.Mount, AccessMode := VolumeAccessMode.SingleNodeWriter }
          stageRetryOptions] ∧
     (stageVolume mgrW volW envFresh).err = envFresh.pluginStageResult) ∧
    ((∃ e, (stageVolume mgrW volUnknown envFresh).err = some e ∧
       GoError.errClass e = ErrorClass.InvalidState) ∧
     Effect.nodeStageVolume "vol-1" (stagingDirForVolume mgrW volUnknown)
       { AccessType := VolumeAccessType.Mount, AccessMode := VolumeAccessMode.SingleNodeWriter }
       stageRetryOptions ∉ (stageVolume mgrW volUnknown envFresh).trace) := by
  constructor
  · exact (c1_capability_translation mgrW volW envFresh rfl rfl).1
      VolumeAccessType.Mount VolumeAccessMode.SingleNodeWriter rfl rfl
  · have h := (c1_capability_translation mgrW volUnknown envFresh rfl rfl).2 (Or.inl rfl)
    exact ⟨h.1, h.2 _ _ _ _⟩

/-- Claim C4 counterexample: with the unknown attachment mode the
InvalidState-class error is indeed returned, yet the staging-directory
creation and the mount-point probe have already been performed - the
claim that the error comes before any filesystem operation is false. -/
theorem c4_counterexample :
    (∃ e, (stageVolume mgrW volUnknown envFresh).err = some e ∧
      GoError.errClass e = ErrorClass.InvalidState) ∧
    Effect.mkdirAll (stagingDirForVolume mgrW volUnknown) 448 ∈
      (stageVolume mgrW volUnknown envFresh).trace ∧
    Effect.isNotAMountPoint (stagingDirForVolume mgrW volUnknown) ∈
      (stageVolume mgrW volUnknown envFresh).trace := by
  exact ⟨⟨GoError.unknownAttachmentMode (CSIVolumeAttachmentMode.other "unknown"),
    by decide, by decide⟩, by decide, by decide⟩

/-- Claim C4 (amended): for a volume whose attachment mode is outside the
known enumeration, once the staging environment is reached (directory
creation does not fail and the path is not already a mount point),
stageVolume returns the InvalidState-class unknown-attachment-mode error
before any network call to the plugin - but only after the
staging-directory creation and the mount-point probe, which the code
performs first. -/
theorem c4_unknown_attachment_mode (v : volumeManager) (vol : CSIVolume) (env : Env)
    (s : String)
    (hmode : vol.AttachmentMode = CSIVolumeAttachmentMode.other s)
    (hmk : env.mkdirResult.failsCreate = false)
    (hpr : env.probeResult = Except.ok true) :
    (stageVolume v vol env).err =
      some (GoError.unknownAttachmentMode (CSIVolumeAttachmentMode.other s)) ∧
    GoError.errClass (GoError.unknownAttachmentMode (CSIVolumeAttachmentMode.other s)) =
      ErrorClass.InvalidState ∧
    (stageVolume v vol env).trace =
      [Effect.mkdirAll (stagingDirForVolume v vol) 448,
       Effect.isNotAMountPoint (stagingDirForVolume v vol)] := by
  have hS := stageVolume_unknownAttachment v vol env s hmode hmk hpr
  exact ⟨by rw [hS], rfl, by rw [hS]⟩

/-- Claim C4 witness at the unknown-attachment-mode volume in a fresh
staging environment. -/
theorem c4_witness :
    (stageVolume mgrW volUnknown envFresh).err =
      some (GoError.unknownAttachmentMode (CSIVolumeAttachmentMode.other "unknown")) ∧
    GoError.errClass (GoError.unknownAttachmentMode (CSIVolumeAttachmentMode.other "unknown")) =
      ErrorClass.InvalidState ∧
    (stageVolume mgrW volUnknown envFresh).trace =
      [Effect.mkdirAll (stagingDirForVolume mgrW volUnknown) 448,
       Effect.isNotAMountPoint (stagingDirForVolume mgrW volUnknown)] :=
  c4_unknown_attachment_mode mgrW volUnknown envFresh "unknown" rfl rfl rfl

/-- Claim C6: every plugin stage call of stageVolume carries exactly the
retry options of the source - per-attempt timeout DefaultMountActionTimeout
(2 minutes), at most 3 attempts, exponential backoff from 100 milliseconds
- and under the spec-modelled retry middleware an all-transient failure is
attempted exactly 3 times with strictly increasing delays starting at 100
milliseconds, ending in the terminal transient-exhausted result. -/
theorem c6_retry_policy (v : volumeManager) (vol : CSIVolume) (env : Env)
    (volumeID p : String) (cap : VolumeCapability) (opts : List GrpcCallOption)
    (h : Effect.nodeStageVolume volumeID p cap opts ∈ (stageVolume v vol env).trace) :
    opts = stageRetryOptions ∧
    stageRetryOptions =
      [GrpcCallOption.withPerRetryTimeout (2 * minute),
       GrpcCallOption.withMax 3,
       GrpcCallOption.withBackoffExponential (100 * millisecond)] ∧
    retryRun (fun _ => AttemptOutcome.transient) (backoffExponential (100 * millisecond)) 0 3 =
      (3, [backoffExponential (100 * millisecond) 1, backoffExponential (100 * millisecond) 2],
       RetryResult.transientExhausted) ∧
    backoffExponential (100 * millisecond) 1 = 100 * millisecond ∧
    backoffExponential (100 * millisecond) 1 < backoffExponential (100 * millisecond) 2 := by
  refine ⟨stageVolume_opts v vol env volumeID p cap opts h, rfl, by decide, by decide, by decide⟩

/-- Claim C6 witness at the fresh-stage scenario, where the plugin call
with the retry options is present in the trace. -/
theorem c6_witness :
    stageRetryOptions =
      [GrpcCallOption.withPerRetryTimeout (2 * minute),
       GrpcCallOption.withMax 3,
       GrpcCallOption.withBackoffExponential (100 * millisecond)] ∧
    retryRun (fun _ => AttemptOutcome.transient) (backoffExponential (100 * millisecond)) 0 3 =
      (3, [backoffExponential (100 * millisecond) 1, backoffExponential (100 * millisecond) 2],
       RetryResult.transientExhausted) ∧
    backoffExponential (100 * millisecond) 1 = 100 * millisecond ∧
    backoffExponential (100 * millisecond) 1 < backoffExponential (100 * millisecond) 2 := by
  have h := c6_retry_policy mgrW volW envFresh "vol-1" (stagingDirForVolume mgrW volW)
    { AccessType := VolumeAccessType.Mount, AccessMode := VolumeAccessMode.SingleNodeWriter }
    stageRetryOptions (by decide)
  exact h.2

/-- Claim C9: MountVolume always returns nil MountInfo together with a
non-nil error - the staging error when staging is required and fails,
the Unimplemented error in every other case (even when staging succeeds) -
and UnmountVolume always returns the Unimplemented error; no call to the
public interface yields a usable MountInfo. -/
theorem c9_mount_unusable (v : volumeManager) (vol : CSIVolume) (alloc : Allocation)
    (env : Env) :
    (MountVolume v vol alloc env).info = none ∧
    (MountVolume v vol alloc env).err ≠ none ∧
    (v.requiresStaging = true →
      ∀ e, (stageVolume v vol env).err = some e →
        (MountVolume v vol alloc env).err = some e) ∧
    (v.requiresStaging = false →
      (MountVolume v vol alloc env).err = some GoError.unimplemented) ∧
    ((stageVolume v vol env).err = none →
      (MountVolume v vol alloc env).err = some GoError.unimplemented) ∧
    UnmountVolume v vol alloc = some GoError.unimplemented := by
  rcases hrs : v.requiresStaging <;>
    rcases hse : (stageVolume v vol env).err with _ | e <;>
    simp [MountVolume, UnmountVolume, hrs, hse]

/-- Claim C9 witness: a successful stage still yields nil MountInfo and
the Unimplemented error; a failed stage propagates its error; unmount is
Unimplemented. -/
theorem c9_witness :
    (MountVolume mgrW volW allocW envFresh).info = none ∧
    (MountVolume mgrW volW allocW envFresh).err = some GoError.unimplemented ∧
    (MountVolume mgrW volUnknown allocW envFresh).err =
      some (GoError.unknownAttachmentMode (CSIVolumeAttachmentMode.other "unknown")) ∧
    UnmountVolume mgrW volW allocW = some GoError.unimplemented := by
  refine ⟨(c9_mount_unusable mgrW volW allocW envFresh).1, ?_, ?_,
    (c9_mount_unusable mgrW volW allocW envFresh).2.2.2.2.2⟩
  · exact (c9_mount_unusable mgrW volW allocW envFresh).2.2.2.2.1 (by decide)
  · exact (c9_mount_unusable mgrW volUnknown allocW envFresh).2.2.1 rfl
      (GoError.unknownAttachmentMode (CSIVolumeAttachmentMode.other "unknown")) (by decide)
